import Mathlib

/-!
# Verification of the mason scene-description graph

This development gives a shallow embedding, in Lean, of the parts of the
mason repository that its specification makes claims about:

* `collections/sparsearray.py` — the sparse logical-index container
  backing array plugs (`SparseArray`);
* `asciiplug.py` — plug connection state (`connect` / `disconnect`),
  array-plug sizing, value extraction (`getValue`) and serialization
  (`getSetAttrCmds`), and plug-path classification (`AsciiPlugPath`);
* `asciidata.py` — per-data-kind codecs (`__loads__` / `__dumps__`),
  default tracking (`isNonDefault` / `default`) and codec resolution
  (`getDataType`).

Python objects are modelled functionally: mutation becomes explicit
state passing, raised exceptions become `Option` / `Except` / explicit
error constructors, and `dict`s keyed by `int` become association lists
kept in ascending key order (every observation the code makes of
`SparseArray.__items__` goes through its sorted `indices()`).  Numeric
leaf values are modelled over `Int`; the claims under study only ever
compare values for equality, never compute with them.
-/

namespace Mason

/-! ## SparseArray (src/collections/sparsearray.py)

A `SparseArray` stores items in the dict `__items__`; `indices()`
returns the sorted key list and every traversal below works from it.
The functions in this section take that sorted index list directly. -/

/-- The scan inside `SparseArray.nextAvailableIndex` (sparsearray.py
lines 258-264): enumerate the sorted indices and return the first
physical position whose logical index differs from it. -/
def findIndexMismatch : Nat → List Nat → Option Nat
  | _, [] => none
  | physicalIndex, logicalIndex :: rest =>
    if physicalIndex ≠ logicalIndex then some physicalIndex
    else findIndexMismatch (physicalIndex + 1) rest

/-- `SparseArray.nextAvailableIndex` (sparsearray.py lines 251-274):
return the first physical/logical mismatch; otherwise return
`lastIndex()` (the largest index in use) when non-empty, else `0`. -/
def nextAvailableIndex (indices : List Nat) : Nat :=
  match findIndexMismatch 0 indices with
  | some physicalIndex => physicalIndex
  | none =>
    match indices.getLast? with
    | some last => last
    | none => 0

/-- `SparseArray.isSequential` (sparsearray.py lines 241-249):
the sorted indices coincide with `range(len)`. -/
def isSequentialIndices (indices : List Nat) : Bool :=
  indices = List.range indices.length

/-- C3: `nextAvailableIndex` does return the first gap on `{0,1,3}` and
`0` on the empty array, but on the gap-free `{0,1,2}` it returns the
*last used* index `2` — not `3`, one past it, as the claim (and the
function's own docstring, "Returns the next available index") require:
index `2` is already occupied. -/
theorem nextAvailableIndex_gapfree_bug :
    nextAvailableIndex [0, 1, 3] = 2 ∧
    nextAvailableIndex [] = 0 ∧
    nextAvailableIndex [0, 1, 2] = 2 ∧
    nextAvailableIndex [0, 1, 2] ≠ 3 := by
  decide

/-! ## Plug connection state (src/asciiplug.py lines 403-455)

Plugs are identified by natural numbers.  A connection state records,
for every plug, its optional source plug (`_source`, a weak reference
the code reads back through `source()`) and its destination list
(`_destinations`, a Python list of weak references in insertion order).
`legalConnection` and `legalDisconnection` on the owning node always
return `True` (asciinode.py lines 684-692 and 707-715), so no legality
guard appears here.  The node-side notification bookkeeping
(`connectionMade`) touches only the node's `_connections` list and is
outside the plug-state model. -/

structure ConnState where
  source : Nat → Option Nat
  dests : Nat → List Nat

/-- The state with no connections: every `_source` is the null weak
reference and every `_destinations` list is empty. -/
def initConnState : ConnState :=
  { source := fun _ => none, dests := fun _ => [] }

/-- `AsciiPlug.connect` (asciiplug.py lines 403-428): set the other
plug's `_source` to this plug and append the other plug to this plug's
`_destinations`.  Nothing is done about any previous source the
destination may have had. -/
def connect (s : ConnState) (selfPlug otherPlug : Nat) : ConnState :=
  { source := fun n => if n = otherPlug then some selfPlug else s.source n,
    dests := fun n => if n = selfPlug then s.dests n ++ [otherPlug] else s.dests n }

/-- Python `list.remove`: delete the first occurrence, or `none` for
the `ValueError` raised when the item is absent.  (Weak references to
the same live plug compare equal, so removal by plug identity is
faithful.) -/
def removeFirst (xs : List Nat) (x : Nat) : Option (List Nat) :=
  match xs with
  | [] => none
  | y :: ys => if y = x then some ys else (removeFirst ys x).map (y :: ·)

/-- First half of `AsciiPlug.disconnect` (asciiplug.py line 448): the
other plug's `_source` is reset to the null weak reference. -/
def clearSource (s : ConnState) (otherPlug : Nat) : ConnState :=
  { s with source := fun n => if n = otherPlug then none else s.source n }

/-- Outcome of `AsciiPlug.disconnect`: either both sides were updated,
or `self._destinations.remove(...)` raised `ValueError`; each carries
the connection state left behind. -/
inductive DisconnectResult where
  | removed (s : ConnState)
  | removalError (s : ConnState)

/-- `AsciiPlug.disconnect` (asciiplug.py lines 430-455): first clear
the other plug's `_source` (line 448), then remove the other plug from
this plug's `_destinations` (line 449).  When the removal raises, the
source has already been cleared and that mutation survives. -/
def disconnect (s : ConnState) (selfPlug otherPlug : Nat) : DisconnectResult :=
  let s1 := clearSource s otherPlug
  match removeFirst (s1.dests selfPlug) otherPlug with
  | some ds => .removed { s1 with dests := fun n => if n = selfPlug then ds else s1.dests n }
  | none => .removalError s1

/-- The bidirectional-agreement invariant from the specification:
`dest ∈ source.destinations ⟺ dest.source == source`. -/
def biConsistent (s : ConnState) : Prop :=
  ∀ a b : Nat, b ∈ s.dests a ↔ s.source b = some a

/-- C1: connecting plug `0 → 1` and then plug `2 → 1` leaves plug `1`
with source `2` while plug `0` still lists `1` among its destinations:
the stale destination entry survives, so the reached state is *not*
bidirectionally consistent, contrary to the claim. -/
theorem connect_stale_destination_bug :
    (connect (connect initConnState 0 1) 2 1).source 1 = some 2 ∧
    1 ∈ (connect (connect initConnState 0 1) 2 1).dests 0 ∧
    ¬ biConsistent (connect (connect initConnState 0 1) 2 1) := by
  refine ⟨rfl, by decide, fun h => ?_⟩
  have h1 := (h 0 1).mp (by decide)
  exact absurd h1 (by decide)

/-- `removeFirst` yields the `ValueError` outcome exactly on absent
items. -/
theorem removeFirst_eq_none {xs : List Nat} {x : Nat} (h : x ∉ xs) :
    removeFirst xs x = none := by
  induction xs with
  | nil => rfl
  | cons y ys ih =>
    rw [List.mem_cons, not_or] at h
    rw [removeFirst, if_neg (fun hyx => h.1 hyx.symm), ih h.2]
    rfl

/-- C10: disconnecting a plug `b` that is not among `a`'s destinations
raises from the destination-list removal, but only after `b`'s source
reference has already been cleared: the resulting state has
`b.source = None` while every destination list is untouched. -/
theorem disconnect_error_after_clear (s : ConnState) (a b : Nat)
    (h : b ∉ s.dests a) :
    disconnect s a b = .removalError (clearSource s b) ∧
    (clearSource s b).source b = none ∧
    (clearSource s b).dests = s.dests := by
  refine ⟨?_, by simp [clearSource], rfl⟩
  have hd : (clearSource s b).dests a = s.dests a := rfl
  rw [disconnect]
  rw [hd, removeFirst_eq_none h]

/-- Witness for C10 at a concrete input: plug `1` is not among plug
`0`'s destinations in the empty state, and the failed disconnect still
clears plug `1`'s source. -/
theorem disconnect_error_after_clear_witness :
    disconnect initConnState 0 1 = .removalError (clearSource initConnState 1) ∧
    (clearSource initConnState 1).source 1 = none ∧
    (clearSource initConnState 1).dests = initConnState.dests :=
  disconnect_error_after_clear initConnState 0 1 (by decide)

/-! ## Codec resolution (src/asciidata.py lines 944-1023)

`__data_types__` maps data-kind names to codec classes; the table entry
for `nurbsTrimface` is `None` (unimplemented).  `getDataType` looks the
attribute's declared kind up — under the `-dt` (typed) flag value when
present, else under the `-at` attribute-type value — and raises
`NotImplementedError` unless the lookup produced a callable class.
Python's `dict.get(key, None)` collapses an absent key and a `None`
entry, so the model maps both to `none`. -/

/-- The codec classes of asciidata.py, one constructor per class. -/
inductive AsciiDataClass where
  | asciiBool
  | asciiInt
  | asciiInt2
  | asciiInt3
  | asciiFloat
  | asciiFloat2
  | asciiFloat3
  | asciiFloat4
  | asciiString
  | asciiMatrix
  | asciiIntArray
  | asciiDoubleArray
  | asciiPointArray
  | asciiVectorArray
  | asciiStringArray
  | asciiSphere
  | asciiCone
  | asciiAttributeAlias
  | asciiComponentList
  | asciiDataPolyComponent
  | asciiNurbsCurve
  | asciiNurbsSurface
  | asciiMesh
  | asciiPolyFaces
  | asciiLattice
  | asciiCompound
  | asciiGeneric
  deriving DecidableEq

/-- `__data_types__.get` (asciidata.py lines 944-992): the data-type
table, with the `nurbsTrimface → None` entry and absent keys both
giving `none`. -/
def dataTypes : String → Option AsciiDataClass
  | "bool" => some .asciiBool
  | "boolean" => some .asciiBool
  | "enum" => some .asciiInt
  | "byte" => some .asciiInt
  | "int" => some .asciiInt
  | "int2" => some .asciiInt2
  | "int3" => some .asciiInt3
  | "short" => some .asciiInt
  | "short2" => some .asciiInt2
  | "short3" => some .asciiInt3
  | "long" => some .asciiInt
  | "long2" => some .asciiInt2
  | "long3" => some .asciiInt3
  | "time" => some .asciiFloat
  | "float" => some .asciiFloat
  | "float2" => some .asciiFloat2
  | "float3" => some .asciiFloat3
  | "double" => some .asciiFloat
  | "double2" => some .asciiFloat2
  | "double3" => some .asciiFloat3
  | "double4" => some .asciiFloat4
  | "doubleLinear" => some .asciiFloat
  | "distance" => some .asciiFloat
  | "doubleAngle" => some .asciiFloat
  | "angle" => some .asciiFloat
  | "attributeAlias" => some .asciiAttributeAlias
  | "string" => some .asciiString
  | "matrix" => some .asciiMatrix
  | "fltMatrix" => some .asciiMatrix
  | "intArray" => some .asciiIntArray
  | "Int32Array" => some .asciiIntArray
  | "doubleArray" => some .asciiDoubleArray
  | "pointArray" => some .asciiPointArray
  | "vectorArray" => some .asciiVectorArray
  | "stringArray" => some .asciiStringArray
  | "sphere" => some .asciiSphere
  | "cone" => some .asciiCone
  | "componentList" => some .asciiComponentList
  | "dataPolyComponent" => some .asciiDataPolyComponent
  | "nurbsCurve" => some .asciiNurbsCurve
  | "nurbsSurface" => some .asciiNurbsSurface
  | "nurbsTrimface" => none
  | "mesh" => some .asciiMesh
  | "polyFaces" => some .asciiPolyFaces
  | "lattice" => some .asciiLattice
  | "compound" => some .asciiCompound
  | "typed" => some .asciiGeneric
  | _ => none

/-- The part of an attribute schema `getDataType` consults:
`isTyped = hasFlag('-dt')`, and the two kind strings. -/
structure AttrTyping where
  isTyped : Bool
  dataType : String
  attributeType : String

/-- `getDataType` (asciidata.py lines 995-1023): look the declared kind
up in `__data_types__` and fail with `NotImplementedError` unless a
codec class was found. -/
def getDataType (attr : AttrTyping) : Except String AsciiDataClass :=
  let cls := if attr.isTyped then dataTypes attr.dataType
             else dataTypes attr.attributeType
  match cls with
  | some c => .ok c
  | none => .error "getDataType() unable to locate data type"

/-- C9: codec resolution never guesses: whenever the declared kind is
in the table with an implementation it returns exactly that codec
class, and whenever the kind is absent or unimplemented — in
particular `nurbsTrimface` — it returns an explicit error. -/
theorem getDataType_resolution (attr : AttrTyping) :
    (∀ c, (if attr.isTyped then dataTypes attr.dataType
           else dataTypes attr.attributeType) = some c →
      getDataType attr = .ok c) ∧
    ((if attr.isTyped then dataTypes attr.dataType
      else dataTypes attr.attributeType) = none →
      getDataType attr = .error "getDataType() unable to locate data type") ∧
    (∀ s, getDataType { isTyped := true, dataType := "nurbsTrimface", attributeType := s }
        = .error "getDataType() unable to locate data type") := by
  refine ⟨fun c hc => ?_, fun hn => ?_, fun s => rfl⟩
  · rw [getDataType, hc]
  · rw [getDataType, hn]

/-- Witness for C9: the supported kind `matrix` resolves to the matrix
codec and the unimplemented `nurbsTrimface` fails fast, both via
`getDataType_resolution`. -/
theorem getDataType_resolution_witness :
    getDataType { isTyped := true, dataType := "matrix", attributeType := "" }
      = .ok .asciiMatrix ∧
    getDataType { isTyped := false, dataType := "", attributeType := "nurbsTrimface" }
      = .error "getDataType() unable to locate data type" :=
  ⟨(getDataType_resolution _).1 .asciiMatrix rfl,
   (getDataType_resolution _).2.1 rfl⟩

/-! ## Data blocks and default tracking (src/asciidata.py lines 96-174)

A data block stores `__value__` together with the kind's class-level
`__default__` and the attribute's optional `-dv` override
(`attribute.defaultValue`). -/

/-- The state of a generic `AsciiData` block over a value domain `V`. -/
structure AsciiDataBlock (V : Type) where
  value : V
  classDefault : V
  userDefault : Option V

/-- `AsciiData.default` (asciidata.py lines 105-124): the attribute
override when present, else the class default.  (The trailing
`cls(default)` constructor call only re-normalizes the value's runtime
type and is the identity on the model's value domain.) -/
def AsciiDataBlock.default {V : Type} (b : AsciiDataBlock V) : V :=
  match b.userDefault with
  | some d => d
  | none => b.classDefault

/-- `AsciiData.isEquivalent` (asciidata.py lines 126-134):
`self.__value__ == other`. -/
def AsciiDataBlock.isEquivalent {V : Type} [DecidableEq V]
    (b : AsciiDataBlock V) (other : V) : Bool :=
  decide (b.value = other)

/-- `AsciiData.isNonDefault` (asciidata.py lines 96-103):
`not self.isEquivalent(self.default())`. -/
def AsciiDataBlock.isNonDefault {V : Type} [DecidableEq V]
    (b : AsciiDataBlock V) : Bool :=
  !(b.isEquivalent b.default)

/-- A matrix block's `__value__`: either a plain 4×4 matrix (list of
rows) or the 38-token `"xform"` transformation dictionary
(`isTransformation`); `AsciiMatrix.isNonDefault` never inspects the
transformation's contents, so they are not carried.  Matrix entries are
modelled over `Int` — only equality with the identity default matters
here. -/
inductive AsciiMatrixValue where
  | plain (m : List (List Int))
  | xform
  deriving DecidableEq

/-- `AsciiMatrix.__default__` (asciidata.py lines 326-331): the 4×4
identity. -/
def matrixClassDefault : List (List Int) :=
  [[1, 0, 0, 0], [0, 1, 0, 0], [0, 0, 1, 0], [0, 0, 0, 1]]

/-- State of an `AsciiMatrix` block: the stored value plus the
attribute-level default override. -/
structure AsciiMatrixBlock where
  value : AsciiMatrixValue
  userDefault : Option AsciiMatrixValue

/-- `AsciiMatrix.isTransformation` (asciidata.py lines 333-336): the
stored value is the transformation dictionary. -/
def AsciiMatrixBlock.isTransformation (b : AsciiMatrixBlock) : Bool :=
  match b.value with
  | .xform => true
  | .plain _ => false

/-- `AsciiMatrix.isNonDefault` (asciidata.py lines 338-346): for a
plain matrix the code returns `self.__value__ == self.__class__.__default__`
— the plain *equality* with the class default, with no negation and
ignoring any attribute-level override — and `True` for every
transformation. -/
def AsciiMatrixBlock.isNonDefault (b : AsciiMatrixBlock) : Bool :=
  if !b.isTransformation then
    decide (b.value = .plain matrixClassDefault)
  else
    true

/-- The effective default the claim compares against: the
attribute-level override when present, else the matrix kind's class
default. -/
def AsciiMatrixBlock.effectiveDefault (b : AsciiMatrixBlock) : AsciiMatrixValue :=
  match b.userDefault with
  | some d => d
  | none => .plain matrixClassDefault

/-- The 4×4 zero matrix, a value distinct from the identity default. -/
def zeroMatrix : List (List Int) :=
  [[0, 0, 0, 0], [0, 0, 0, 0], [0, 0, 0, 0], [0, 0, 0, 0]]

/-- C2: the invariant `isNonDefault() == (value != effectiveDefault())`
does hold for every generic data block, but `AsciiMatrix.isNonDefault`
inverts it — the comparison `__value__ == __default__` lacks the
negation (and consults only the class default): a matrix block still
holding the identity default reports non-default, and a genuinely
modified plain matrix reports default. -/
theorem isNonDefault_matrix_inverted :
    (∀ (V : Type) [DecidableEq V] (b : AsciiDataBlock V),
        b.isNonDefault = true ↔ b.value ≠ b.default) ∧
    (AsciiMatrixBlock.isNonDefault ⟨.plain matrixClassDefault, none⟩ = true ∧
      AsciiMatrixBlock.effectiveDefault ⟨.plain matrixClassDefault, none⟩
        = .plain matrixClassDefault) ∧
    (AsciiMatrixBlock.isNonDefault ⟨.plain zeroMatrix, none⟩ = false ∧
      AsciiMatrixValue.plain zeroMatrix
        ≠ AsciiMatrixBlock.effectiveDefault ⟨.plain zeroMatrix, none⟩) := by
  refine ⟨fun V _ b => ?_, by decide, by decide⟩
  simp [AsciiDataBlock.isNonDefault, AsciiDataBlock.isEquivalent]

/-! ## Token helpers

The codecs and the path parser exchange whitespace-separated tokens;
Python's `int(...)` and `str(...)` are modelled character-wise so that
every concrete evaluation reduces inside the kernel. -/

/-- Digit accumulator for `int(...)`. -/
def parseNatAux : List Char → Nat → Option Nat
  | [], acc => some acc
  | c :: rest, acc =>
    if c.isDigit then parseNatAux rest (acc * 10 + (c.toNat - 48))
    else none

/-- Python `int(...)` restricted to unsigned digit strings (used for
counts); `none` models the `ValueError` on anything else. -/
def parseNatChars : List Char → Option Nat
  | [] => none
  | c :: rest => parseNatAux (c :: rest) 0

/-- Python `int(...)` with an optional leading sign. -/
def parseIntChars : List Char → Option Int
  | '-' :: rest => (parseNatChars rest).map (fun n => -(n : Int))
  | cs => (parseNatChars cs).map (fun n => (n : Int))

/-- `int(token)`. -/
def parseNatTok (s : String) : Option Nat :=
  parseNatChars s.data

/-- `int(token)` with sign. -/
def parseIntTok (s : String) : Option Int :=
  parseIntChars s.data

/-- `str(n)` for a natural number. -/
def natTok (n : Nat) : String :=
  ⟨Nat.toDigits 10 n⟩

/-- `str(i)` for an integer. -/
def intTok : Int → String
  | .ofNat n => natTok n
  | .negSucc n => "-" ++ natTok (n + 1)

/-! ## Array codecs (src/asciidata.py lines 408-537)

`__loads__` receives the already-tokenized argument strings of a
`setAttr` statement; `__dumps__` produces the serialized payload, which
the model represents as its token list (the source space-joins the
same tokens into one string).  `none` models the `IndexError` /
`ValueError` raised on missing or malformed tokens. -/

/-- `AsciiIntArray.__loads__` (asciidata.py lines 413-423): read the
declared count from the first token, then consume exactly that many
integer tokens; tokens beyond the count are never touched. -/
def asciiIntArrayLoads (strings : List String) : Option (List Int) :=
  match strings with
  | [] => none
  | s0 :: rest =>
    match parseNatTok s0 with
    | none => none
    | some sizeHint =>
      if rest.length < sizeHint then none
      else (rest.take sizeHint).mapM parseIntTok

/-- `AsciiIntArray.__dumps__` (asciidata.py lines 425-431): emit
`len(value)` followed by the integers. -/
def asciiIntArrayDumps (value : List Int) : List String :=
  natTok value.length :: value.map intTok

/-- Group a flat coordinate token list into `(x, y, z, w)` points. -/
def loadPointGroups : List String → Option (List (Int × Int × Int × Int))
  | [] => some []
  | x :: y :: z :: w :: rest =>
    match parseIntTok x, parseIntTok y, parseIntTok z, parseIntTok w with
    | some a, some b, some c, some d =>
      (loadPointGroups rest).map (fun ps => (a, b, c, d) :: ps)
    | _, _, _, _ => none
  | _ => none

/-- `AsciiPointArray.__loads__` (asciidata.py lines 465-480): read the
declared count, then consume exactly `4 * count` coordinate tokens in
groups of four (`strings[4i+1] .. strings[4i+4]` for `i < count`).
Coordinates are modelled over `Int`; the claim concerns only how many
tokens are consumed. -/
def asciiPointArrayLoads (strings : List String) :
    Option (List (Int × Int × Int × Int)) :=
  match strings with
  | [] => none
  | s0 :: rest =>
    match parseNatTok s0 with
    | none => none
    | some sizeHint =>
      if rest.length < 4 * sizeHint then none
      else loadPointGroups (rest.take (4 * sizeHint))

/-- `AsciiPointArray.__dumps__` (asciidata.py lines 482-488): emit
`len(value)` followed by each point's four coordinates. -/
def asciiPointArrayDumps (value : List (Int × Int × Int × Int)) : List String :=
  natTok value.length
    :: value.flatMap (fun p => [intTok p.1, intTok p.2.1, intTok p.2.2.1, intTok p.2.2.2])

/-- `AsciiDoubleArray.__loads__` (asciidata.py lines 439-449): read
the declared count from the first token, then consume exactly that
many numeric tokens; tokens beyond the count are never touched.
Doubles are modelled over `Int`; the claim concerns only token
consumption and count re-emission. -/
def asciiDoubleArrayLoads (strings : List String) : Option (List Int) :=
  match strings with
  | [] => none
  | s0 :: rest =>
    match parseNatTok s0 with
    | none => none
    | some sizeHint =>
      if rest.length < sizeHint then none
      else (rest.take sizeHint).mapM parseIntTok

/-- `AsciiDoubleArray.__dumps__` (asciidata.py lines 451-457): emit
`len(value)` followed by the numbers. -/
def asciiDoubleArrayDumps (value : List Int) : List String :=
  natTok value.length :: value.map intTok

/-- Group a flat coordinate token list into `(x, y, z)` vectors. -/
def loadVectorGroups : List String → Option (List (Int × Int × Int))
  | [] => some []
  | x :: y :: z :: rest =>
    match parseIntTok x, parseIntTok y, parseIntTok z with
    | some a, some b, some c =>
      (loadVectorGroups rest).map (fun vs => (a, b, c) :: vs)
    | _, _, _ => none
  | _ => none

/-- `AsciiVectorArray.__loads__` (asciidata.py lines 496-510): read
the declared count, then consume exactly `3 * count` coordinate tokens
in groups of three (`strings[3i+1] .. strings[3i+3]` for `i < count`).
Coordinates are modelled over `Int` as for the point array. -/
def asciiVectorArrayLoads (strings : List String) :
    Option (List (Int × Int × Int)) :=
  match strings with
  | [] => none
  | s0 :: rest =>
    match parseNatTok s0 with
    | none => none
    | some sizeHint =>
      if rest.length < 3 * sizeHint then none
      else loadVectorGroups (rest.take (3 * sizeHint))

/-- `AsciiVectorArray.__dumps__` (asciidata.py lines 512-518): emit
`len(value)` followed by each vector's three coordinates. -/
def asciiVectorArrayDumps (value : List (Int × Int × Int)) : List String :=
  natTok value.length
    :: value.flatMap (fun p => [intTok p.1, intTok p.2.1, intTok p.2.2])

/-- `AsciiStringArray.__loads__` (asciidata.py lines 526-529):
`return [strings[1:]]` — the leading count token is dropped unread and
*every* remaining token is absorbed into the value. -/
def asciiStringArrayLoads (strings : List String) : List String :=
  strings.drop 1

/-- `AsciiStringArray.__dumps__` (asciidata.py lines 531-537): emit
`len(value)` followed by the (quoted) strings; the quoting is the
tokenizer's concern and is not modelled. -/
def asciiStringArrayDumps (value : List String) : List String :=
  natTok value.length :: value

/-- `AsciiComponentList.__loads__` (asciidata.py lines 594-597):
`return [strings[1:]]` — identical to the string-array decoder, the
count token is dropped unread and every remaining token absorbed. -/
def asciiComponentListLoads (strings : List String) : List String :=
  strings.drop 1

/-- `AsciiComponentList.__dumps__` (asciidata.py lines 599-605): emit
`len(value)` followed by the (quoted) component strings. -/
def asciiComponentListDumps (value : List String) : List String :=
  natTok value.length :: value

/-- C5 counterexample: a string-array payload declaring count `2` but
followed by three tokens decodes to all *three* strings — the declared
count does not bound consumption for this kind, contrary to the claim's
"every array data kind". -/
theorem stringArrayLoads_ignores_count :
    asciiStringArrayLoads ["2", "a", "b", "c"] = ["a", "b", "c"] ∧
    asciiStringArrayLoads ["2", "a", "b", "c"] ≠ ["a", "b"] := by
  decide

/-- C5 (amended): the int-array, double-array, point-array and
vector-array decoders bound their consumption by the declared count —
appending extra trailing tokens never changes the decoded value — and
every array encoder re-emits the element count ahead of the payload;
the string-array and component-list decoders, however, drop the count
token unread and absorb every remaining token. -/
theorem arrayCodecs_count_bounded (s0 : String) (n : Nat) (rest extra : List String)
    (hn : parseNatTok s0 = some n) :
    (n ≤ rest.length →
      asciiIntArrayLoads (s0 :: (rest ++ extra)) = asciiIntArrayLoads (s0 :: rest)) ∧
    (n ≤ rest.length →
      asciiDoubleArrayLoads (s0 :: (rest ++ extra)) = asciiDoubleArrayLoads (s0 :: rest)) ∧
    (4 * n ≤ rest.length →
      asciiPointArrayLoads (s0 :: (rest ++ extra)) = asciiPointArrayLoads (s0 :: rest)) ∧
    (3 * n ≤ rest.length →
      asciiVectorArrayLoads (s0 :: (rest ++ extra)) = asciiVectorArrayLoads (s0 :: rest)) ∧
    (∀ value : List Int,
      (asciiIntArrayDumps value).head? = some (natTok value.length)) ∧
    (∀ value : List Int,
      (asciiDoubleArrayDumps value).head? = some (natTok value.length)) ∧
    (∀ value : List (Int × Int × Int × Int),
      (asciiPointArrayDumps value).head? = some (natTok value.length)) ∧
    (∀ value : List (Int × Int × Int),
      (asciiVectorArrayDumps value).head? = some (natTok value.length)) ∧
    (∀ value : List String,
      (asciiStringArrayDumps value).head? = some (natTok value.length)) ∧
    (∀ value : List String,
      (asciiComponentListDumps value).head? = some (natTok value.length)) ∧
    (asciiStringArrayLoads (s0 :: rest) = rest) ∧
    (asciiComponentListLoads (s0 :: rest) = rest) := by
  refine ⟨fun h => ?_, fun h => ?_, fun h => ?_, fun h => ?_, fun _ => rfl,
    fun _ => rfl, fun _ => rfl, fun _ => rfl, fun _ => rfl, fun _ => rfl, rfl, rfl⟩
  · have e1 : asciiIntArrayLoads (s0 :: (rest ++ extra))
        = if (rest ++ extra).length < n then none
          else ((rest ++ extra).take n).mapM parseIntTok := by
      rw [asciiIntArrayLoads, hn]
    have e2 : asciiIntArrayLoads (s0 :: rest)
        = if rest.length < n then none else (rest.take n).mapM parseIntTok := by
      rw [asciiIntArrayLoads, hn]
    rw [e1, e2, if_neg (by rw [List.length_append]; omega),
      if_neg (by omega), List.take_append_of_le_length h]
  · have e1 : asciiDoubleArrayLoads (s0 :: (rest ++ extra))
        = if (rest ++ extra).length < n then none
          else ((rest ++ extra).take n).mapM parseIntTok := by
      rw [asciiDoubleArrayLoads, hn]
    have e2 : asciiDoubleArrayLoads (s0 :: rest)
        = if rest.length < n then none else (rest.take n).mapM parseIntTok := by
      rw [asciiDoubleArrayLoads, hn]
    rw [e1, e2, if_neg (by rw [List.length_append]; omega),
      if_neg (by omega), List.take_append_of_le_length h]
  · have e1 : asciiPointArrayLoads (s0 :: (rest ++ extra))
        = if (rest ++ extra).length < 4 * n then none
          else loadPointGroups ((rest ++ extra).take (4 * n)) := by
      rw [asciiPointArrayLoads, hn]
    have e2 : asciiPointArrayLoads (s0 :: rest)
        = if rest.length < 4 * n then none
          else loadPointGroups (rest.take (4 * n)) := by
      rw [asciiPointArrayLoads, hn]
    rw [e1, e2, if_neg (by rw [List.length_append]; omega),
      if_neg (by omega), List.take_append_of_le_length h]
  · have e1 : asciiVectorArrayLoads (s0 :: (rest ++ extra))
        = if (rest ++ extra).length < 3 * n then none
          else loadVectorGroups ((rest ++ extra).take (3 * n)) := by
      rw [asciiVectorArrayLoads, hn]
    have e2 : asciiVectorArrayLoads (s0 :: rest)
        = if rest.length < 3 * n then none
          else loadVectorGroups (rest.take (3 * n)) := by
      rw [asciiVectorArrayLoads, hn]
    rw [e1, e2, if_neg (by rw [List.length_append]; omega),
      if_neg (by omega), List.take_append_of_le_length h]

/-- Witness for C5 at concrete inputs: int, double, point and vector
arrays of declared count 1 each ignore the extra trailing token, and
the component-list decoder — like the string-array one — absorbs every
token after the count. -/
theorem arrayCodecs_count_bounded_witness :
    asciiIntArrayLoads ["1", "5", "9"] = asciiIntArrayLoads ["1", "5"] ∧
    asciiIntArrayLoads ["1", "5"] = some [5] ∧
    asciiDoubleArrayLoads ["1", "5", "9"] = asciiDoubleArrayLoads ["1", "5"] ∧
    asciiDoubleArrayLoads ["1", "5"] = some [5] ∧
    asciiPointArrayLoads ["1", "1", "2", "3", "4", "9"]
      = asciiPointArrayLoads ["1", "1", "2", "3", "4"] ∧
    asciiPointArrayLoads ["1", "1", "2", "3", "4"] = some [(1, 2, 3, 4)] ∧
    asciiVectorArrayLoads ["1", "1", "2", "3", "9"]
      = asciiVectorArrayLoads ["1", "1", "2", "3"] ∧
    asciiVectorArrayLoads ["1", "1", "2", "3"] = some [(1, 2, 3)] ∧
    asciiComponentListLoads ["2", "a", "b", "c"] = ["a", "b", "c"] :=
  ⟨(arrayCodecs_count_bounded "1" 1 ["5"] ["9"] (by decide)).1 (by decide),
   by decide,
   (arrayCodecs_count_bounded "1" 1 ["5"] ["9"] (by decide)).2.1 (by decide),
   by decide,
   (arrayCodecs_count_bounded "1" 1 ["1", "2", "3", "4"] ["9"] (by decide)).2.2.1 (by decide),
   by decide,
   (arrayCodecs_count_bounded "1" 1 ["1", "2", "3"] ["9"] (by decide)).2.2.2.1 (by decide),
   by decide,
   (arrayCodecs_count_bounded "2" 2 ["a", "b", "c"] [] (by decide)).2.2.2.2.2.2.2.2.2.2.2⟩

/-! ## Plug path parsing and classification (src/asciiplug.py lines 875-1098)

An `AsciiPlugPath` is a list of `AsciiPlugSegment`s, each pairing an
attribute with the optional index or slice found for that attribute's
short or long name anywhere in the path string.  Classification only
consults the index components, so the model works on lists of them;
parsing is modelled from the constructor (lines 894-948) with the
owning node's attribute lookup supplied as a function. -/

/-- `AsciiPlugPath.expandIndex`'s non-trivial results (lines
1066-1098): a bare integer, or a `start:stop` slice with the step
fixed at 1. -/
inductive PlugIndex where
  | single (i : Int)
  | slice (startIndex stopIndex : Int)
  deriving DecidableEq

/-- A segment's index component: `None`, an integer, or a slice. -/
abbrev SegIndex := Option PlugIndex

/-- Python's `isinstance(index, slice)`. -/
def isSliceIndex : SegIndex → Bool
  | some (.slice _ _) => true
  | _ => false

/-- `AsciiPlugPath.isSingle` (lines 1030-1037): no segment carries a
slice. -/
def pathIsSingle (segments : List SegIndex) : Bool :=
  segments.all (fun seg => !isSliceIndex seg)

/-- `AsciiPlugPath.isArray` (lines 1039-1046): the final segment's
index is a slice. -/
def pathIsArray (segments : List SegIndex) : Bool :=
  match segments.getLast? with
  | some seg => isSliceIndex seg
  | none => false

/-- `AsciiPlugPath.isCompoundArray` (lines 1048-1055): the final
segment has no index and the second-to-last carries a slice.  (The
source indexes `segments[-2]` unguarded; `type()` only reaches this
test on paths that are neither single nor array, which forces at least
two segments.) -/
def pathIsCompoundArray (segments : List SegIndex) : Bool :=
  match segments.reverse with
  | lastSeg :: secondLast :: _ => decide (lastSeg = none) && isSliceIndex secondLast
  | _ => false

/-- `AsciiPlugType` (asciiplug.py line 876). -/
inductive AsciiPlugType where
  | kSingle
  | kArray
  | kCompoundArray
  deriving DecidableEq

/-- `AsciiPlugPath.type` (lines 1007-1028): try the three shape tests
in order; `none` models the `RuntimeError` on an unknown path type. -/
def pathType (segments : List SegIndex) : Option AsciiPlugType :=
  if pathIsSingle segments then some .kSingle
  else if pathIsArray segments then some .kArray
  else if pathIsCompoundArray segments then some .kCompoundArray
  else none

/-- A path whose final segment is a slice has a slice somewhere, so it
is never single. -/
theorem single_false_of_array {segments : List SegIndex}
    (h : pathIsArray segments = true) : pathIsSingle segments = false := by
  rw [pathIsArray] at h
  match hl : segments.getLast? with
  | none => rw [hl] at h; exact absurd h (by simp)
  | some seg =>
    rw [hl] at h
    have hslice : isSliceIndex seg = true := h
    rw [pathIsSingle, List.all_eq_false]
    exact ⟨seg, List.mem_of_mem_getLast? hl, by simp [hslice]⟩

/-- A compound-array path (final index `None`, second-to-last a slice)
is neither single nor array. -/
theorem compound_array_exclusive {segments : List SegIndex}
    (h : pathIsCompoundArray segments = true) :
    pathIsSingle segments = false ∧ pathIsArray segments = false := by
  rw [pathIsCompoundArray] at h
  match hr : segments.reverse with
  | [] => rw [hr] at h; exact absurd h (by simp)
  | [lastSeg] => rw [hr] at h; exact absurd h (by simp)
  | lastSeg :: secondLast :: restSegs =>
    rw [hr] at h
    simp only [Bool.and_eq_true, decide_eq_true_eq] at h
    constructor
    · rw [pathIsSingle, List.all_eq_false]
      refine ⟨secondLast, ?_, by simp [h.2]⟩
      have : secondLast ∈ segments.reverse := by rw [hr]; simp
      exact List.mem_reverse.mp this
    · rw [pathIsArray]
      have : segments.getLast? = some lastSeg := by
        rw [← List.head?_reverse, hr]; rfl
      rw [this, h.1]
      rfl

/-- Split a character list at every occurrence of a separator
(Python `str.split`; the result is always non-empty). -/
def splitOnChar (sep : Char) : List Char → List (List Char)
  | [] => [[]]
  | c :: rest =>
    match splitOnChar sep rest with
    | [] => [[c]]
    | h :: t => if c = sep then [] :: h :: t else (c :: h) :: t

/-- One match of the `__syntax__` regular expression (line 892),
name part: the characters before any `[`. -/
def takeName : List Char → List Char × List Char
  | [] => ([], [])
  | c :: rest =>
    if c = '[' then ([], c :: rest)
    else
      let (n, r) := takeName rest
      (c :: n, r)

/-- One match of the `__syntax__` regular expression, index part: the
characters between `[` and `]`, empty when there is no bracket. -/
def bracketContents : List Char → List Char
  | '[' :: rest => rest.takeWhile (fun c => c ≠ ']')
  | _ => []

/-- `AsciiPlugPath.expandIndex` (lines 1066-1098): the empty string
yields no index, a bare integer a single index, `a:b` the slice
`slice(a, b, 1)`; anything else is the `TypeError`, modelled by the
outer `none`. -/
def expandIndex (chars : List Char) : Option SegIndex :=
  if chars.length = 0 then some none
  else
    match splitOnChar ':' chars with
    | [s] => (parseIntChars s).map (fun i => some (.single i))
    | [s1, s2] =>
      match parseIntChars s1, parseIntChars s2 with
      | some a, some b => some (some (.slice a b))
      | _, _ => none
    | _ => none

/-- The name pair of one attribute schema, as the path constructor
consults it. -/
structure MAttrName where
  shortName : String
  longName : String

/-- Python `dict.get` over the `indices` mapping built on line 938
(later duplicate names overwrite earlier ones). -/
def lookupIndices (indicesList : List (String × SegIndex)) (key : String) :
    Option SegIndex :=
  List.lookup key indicesList.reverse

/-- Line 947: `indices.get(attribute.shortName, indices.get(attribute.longName))`. -/
def segmentIndexFor (indicesList : List (String × SegIndex)) (a : MAttrName) : SegIndex :=
  match lookupIndices indicesList a.shortName with
  | some ix => ix
  | none =>
    match lookupIndices indicesList a.longName with
    | some ix => ix
    | none => none

/-- The `AsciiPlugPath` constructor (lines 894-948), with the node's
attribute lookup abstracted as `resolveTrace` — the root-to-leaf
attribute chain `attribute(name).trace()` of a name, `none` when the
node has no such attribute.  Split the path on dots, require at least
a node name and one attribute piece, collect each piece's name and
expanded index into the `indices` mapping, resolve the *last* piece's
name to its attribute chain, and pair every attribute on the chain
with the index registered under its short or long name. -/
def parsePlugPath (resolveTrace : String → Option (List MAttrName)) (path : String) :
    Option (List SegIndex) :=
  let pieces := splitOnChar '.' path.data
  if pieces.length < 2 then none
  else
    let groups := (pieces.drop 1).map (fun cs =>
      let (nameChars, rest) := takeName cs
      (String.mk nameChars, bracketContents rest))
    match groups.mapM (fun g => (expandIndex g.2).map (fun ix => (g.1, ix))) with
    | none => none
    | some indicesList =>
      match groups.getLast? with
      | none => none
      | some lastGroup =>
        match resolveTrace lastGroup.1 with
        | none => none
        | some attrs => some (attrs.map (segmentIndexFor indicesList))

/-- A demonstration node schema for the claim's three example paths: a
`translate` compound with child `translateX`, a `weightList` array
compound with child `weights`, and a top-level `points` array.  Each
name resolves to its attribute's root-to-leaf chain. -/
def demoTrace : String → Option (List MAttrName)
  | "translate" => some [⟨"t", "translate"⟩]
  | "t" => some [⟨"t", "translate"⟩]
  | "translateX" => some [⟨"t", "translate"⟩, ⟨"tx", "translateX"⟩]
  | "tx" => some [⟨"t", "translate"⟩, ⟨"tx", "translateX"⟩]
  | "weightList" => some [⟨"wl", "weightList"⟩]
  | "wl" => some [⟨"wl", "weightList"⟩]
  | "weights" => some [⟨"wl", "weightList"⟩, ⟨"w", "weights"⟩]
  | "w" => some [⟨"wl", "weightList"⟩, ⟨"w", "weights"⟩]
  | "points" => some [⟨"pt", "points"⟩]
  | "pt" => some [⟨"pt", "points"⟩]
  | _ => none

/-- C8: a parsed path is classified into exactly one of the three
shapes — `type()` answers `kSingle` precisely when no segment carries a
slice, `kArray` precisely when the final segment carries a slice, and
`kCompoundArray` precisely when the final segment has no index and the
second-to-last carries a slice — and the three example paths classify
as array, compound-array and single respectively. -/
theorem pathType_classification :
    (∀ segments : List SegIndex,
      (pathType segments = some .kSingle ↔ pathIsSingle segments = true) ∧
      (pathType segments = some .kArray ↔ pathIsArray segments = true) ∧
      (pathType segments = some .kCompoundArray ↔ pathIsCompoundArray segments = true)) ∧
    (parsePlugPath demoTrace "node.points[0:3]").map pathType
      = some (some .kArray) ∧
    (parsePlugPath demoTrace "node.weightList[0:3].weights").map pathType
      = some (some .kCompoundArray) ∧
    (parsePlugPath demoTrace "node.translateX").map pathType
      = some (some .kSingle) := by
  refine ⟨fun segments => ?_, by decide, by decide, by decide⟩
  cases hS : pathIsSingle segments with
  | true =>
    have hA : pathIsArray segments = false := by
      cases hA : pathIsArray segments
      · rfl
      · exact absurd hS (by simp [single_false_of_array hA])
    have hC : pathIsCompoundArray segments = false := by
      cases hC : pathIsCompoundArray segments
      · rfl
      · exact absurd hS (by simp [(compound_array_exclusive hC).1])
    simp [pathType, hS, hA, hC]
  | false =>
    cases hA : pathIsArray segments with
    | true =>
      have hC : pathIsCompoundArray segments = false := by
        cases hC : pathIsCompoundArray segments
        · rfl
        · exact absurd hA (by simp [(compound_array_exclusive hC).2])
      simp [pathType, hS, hA, hC]
    | false =>
      cases hC : pathIsCompoundArray segments <;> simp [pathType, hS, hA, hC]

/-! ## Plug trees (src/asciiplug.py lines 16-872)

A plug mirrors its attribute's shape: a scalar plug owns a data block,
a compound plug owns the ordered child-plug list, and a top-level array
plug owns the sparse element dict.  An array *element* appears as the
plug stored inside its parent's dict and is itself scalar or compound
(`isElement` separates it from its parent in the source's branch
tests).  The element dict (`SparseArray.__items__`) is carried as its
ascending-key association list — every traversal the modelled code
performs goes through the sorted `indices()` view.  Scalar data blocks
always exist: the constructor (lines 78-84) either assigns one or
propagates `getDataType`'s error, so the `_dataBlock is None` guard on
line 849 is unreachable.  Leaf values are modelled over `Int`;
serialized names (`partialName`) are carried as given strings, their
computation being outside the claims under study. -/

/-- The attribute fields the plug operations consult. -/
structure MAttrInfo where
  longName : String
  attrType : String
  isTyped : Bool
  dataTypeName : String
  storable : Bool
  cmdName : String

/-- A plug tree: scalar with data block, compound with children, or
top-level array with its sparse element dict. -/
inductive MPlug where
  | scalar (attr : MAttrInfo) (block : AsciiDataBlock Int)
  | compound (attr : MAttrInfo) (children : List MPlug)
  | arrayPlug (attr : MAttrInfo) (elems : List (Nat × MPlug))

/-- The attribute of a plug. -/
def MPlug.attr : MPlug → MAttrInfo
  | .scalar a _ => a
  | .compound a _ => a
  | .arrayPlug a _ => a

/-- A Python value as `AsciiPlug.getValue` produces it: a scalar, a
list, an index-keyed dict, a name-keyed dict — or an *un-invoked bound
method* object, which is what the expression `y.getValue` (no call
parentheses, asciiplug.py line 699) evaluates to. -/
inductive PyValue where
  | intVal (v : Int)
  | listVal (xs : List PyValue)
  | intMap (xs : List (Nat × PyValue))
  | strMap (xs : List (String × PyValue))
  | boundMethod (receiver : MPlug)

mutual

/-- `AsciiPlug.getValue` (asciiplug.py lines 680-717): a sequential
array yields the ordered element values; a sparse array yields the
dict `{index: y.getValue}` — whose entries are the bound methods
themselves, since the comprehension omits the call; a `compound`-kind
plug yields `{longName: value}`; a numeric compound yields the ordered
child values; a scalar yields its data block's value. -/
def MPlug.getValue : MPlug → PyValue
  | .arrayPlug _ elems =>
    if isSequentialIndices (elems.map (fun e => e.1)) then
      .listVal (getValueElems elems)
    else
      .intMap (getValueMethodMap elems)
  | .compound a children =>
    if a.attrType = "compound" then
      .strMap (getValueNamed children)
    else
      .listVal (getValueList children)
  | .scalar _ block => .intVal block.value

/-- `[x.getValue() for x in self._elements.values()]` (line 695). -/
def getValueElems : List (Nat × MPlug) → List PyValue
  | [] => []
  | (_, p) :: rest => p.getValue :: getValueElems rest

/-- `{x: y.getValue for (x, y) in self._elements.items()}` (line 699):
each entry maps the logical index to the *bound method*, not its
result. -/
def getValueMethodMap : List (Nat × MPlug) → List (Nat × PyValue)
  | [] => []
  | (i, p) :: rest => (i, .boundMethod p) :: getValueMethodMap rest

/-- `{x.attribute.longName: x.getValue() for x in self._children}`
(line 707). -/
def getValueNamed : List MPlug → List (String × PyValue)
  | [] => []
  | p :: rest => (p.attr.longName, p.getValue) :: getValueNamed rest

/-- `[x.getValue() for x in self._children]` (line 711). -/
def getValueList : List MPlug → List PyValue
  | [] => []
  | p :: rest => p.getValue :: getValueList rest

end

mutual

/-- `AsciiPlug.isNonDefault` (asciiplug.py lines 484-504): an array is
non-default when any element is, a compound when any child is, a
scalar when its data block is. -/
def MPlug.isNonDefault : MPlug → Bool
  | .arrayPlug _ elems => anyNonDefaultElems elems
  | .compound _ children => anyNonDefaultChildren children
  | .scalar _ block => block.isNonDefault

/-- `any([x.isNonDefault for x in self._elements.values()])`. -/
def anyNonDefaultElems : List (Nat × MPlug) → Bool
  | [] => false
  | (_, p) :: rest => p.isNonDefault || anyNonDefaultElems rest

/-- `any([x.isNonDefault for x in self._children])`. -/
def anyNonDefaultChildren : List MPlug → Bool
  | [] => false
  | p :: rest => p.isNonDefault || anyNonDefaultChildren rest

end

/-- One emitted `setAttr` command, with the interpolated data carried
structurally: the `-s` size assertion, a `-type`-flagged assignment, a
plain assignment, or a numeric-compound assignment whose payload is
the children's space-joined values. -/
inductive SetAttrCmd where
  | setSize (name : String) (count : Nat)
  | typedAssign (name : String) (dataTypeName : String) (value : String)
  | untypedAssign (name : String) (value : String)
  | compoundAssign (name : String) (attrType : String) (values : List PyValue)

/-- Whether a command is the `-s` size assertion. -/
def SetAttrCmd.isSetSize : SetAttrCmd → Bool
  | .setSize _ _ => true
  | _ => false

mutual

/-- `AsciiPlug.getSetAttrCmds` (asciiplug.py lines 774-872).  A
non-storable plug emits nothing.  An array plug with no elements emits
nothing; otherwise it emits the size assertion *only when the elements
are sequential* (lines 802-809) and then every physical element's
commands in ascending-index order, each with non-default filtering on
(the recursive calls use the default argument).  A `compound`-kind
plug recurses per child; a numeric compound emits one command with all
child values; a scalar emits nothing when filtering is requested and
the value is default, else one typed or untyped assignment. -/
def MPlug.getSetAttrCmds (nonDefault : Bool) : MPlug → List SetAttrCmd
  | .arrayPlug a elems =>
    if !a.storable then []
    else if elems.length = 0 then []
    else
      (if isSequentialIndices (elems.map (fun e => e.1)) then
        [.setSize a.cmdName elems.length]
      else []) ++ elemsSetAttrCmds elems
  | .compound a children =>
    if !a.storable then []
    else if a.attrType = "compound" then
      childrenSetAttrCmds children
    else
      [.compoundAssign a.cmdName a.attrType (getValueList children)]
  | .scalar a block =>
    if !a.storable then []
    else if nonDefault && !block.isNonDefault then []
    else if a.isTyped then
      [.typedAssign a.cmdName a.dataTypeName (intTok block.value)]
    else
      [.untypedAssign a.cmdName (intTok block.value)]

/-- Lines 811-816: `for i in range(self.numElements):
commands.extend(self.elementByPhysicalIndex(i).getSetAttrCmds())` —
the stored dict walked in ascending index order. -/
def elemsSetAttrCmds : List (Nat × MPlug) → List SetAttrCmd
  | [] => []
  | (_, p) :: rest => MPlug.getSetAttrCmds true p ++ elemsSetAttrCmds rest

/-- Lines 828-832: `commands.extend(self.child(i).getSetAttrCmds())`. -/
def childrenSetAttrCmds : List MPlug → List SetAttrCmd
  | [] => []
  | p :: rest => MPlug.getSetAttrCmds true p ++ childrenSetAttrCmds rest

end

/-- A storable untyped numeric attribute (declared with `-at "double"`,
no `-dt` flag). -/
def doubleAttr (n : String) : MAttrInfo :=
  { longName := n, attrType := "double", isTyped := false,
    dataTypeName := "", storable := true, cmdName := n }

/-- A storable non-numeric compound attribute (`-at "compound"`). -/
def compoundAttr (n : String) : MAttrInfo :=
  { longName := n, attrType := "compound", isTyped := false,
    dataTypeName := "", storable := true, cmdName := n }

/-- A storable numeric-compound attribute (`-at "double2"`). -/
def double2Attr (n : String) : MAttrInfo :=
  { longName := n, attrType := "double2", isTyped := false,
    dataTypeName := "", storable := true, cmdName := n }

/-- A scalar plug named `n` holding `v` over class default `0`. -/
def demoScalar (n : String) (v : Int) : MPlug :=
  .scalar (doubleAttr n) { value := v, classDefault := 0, userDefault := none }

/-- C4: `getValue` recurses per plug shape — a contiguous array yields
the ordered element values, a `compound`-kind plug the name-keyed
child mapping, a numeric compound the ordered child values, and a
scalar its data block's value — but a *sparse* array yields
`{index: y.getValue}` whose entries are the un-invoked bound methods,
not the element values: the dict comprehension on asciiplug.py line
699 omits the call parentheses. -/
theorem getValue_sparse_bound_method_bug :
    MPlug.getValue (.arrayPlug (doubleAttr "arr")
        [(0, demoScalar "arr" 1), (1, demoScalar "arr" 2)])
      = .listVal [.intVal 1, .intVal 2] ∧
    MPlug.getValue (.arrayPlug (doubleAttr "arr")
        [(0, demoScalar "arr" 1), (2, demoScalar "arr" 2)])
      = .intMap [(0, .boundMethod (demoScalar "arr" 1)),
                 (2, .boundMethod (demoScalar "arr" 2))] ∧
    MPlug.getValue (.arrayPlug (doubleAttr "arr")
        [(0, demoScalar "arr" 1), (2, demoScalar "arr" 2)])
      ≠ .intMap [(0, .intVal 1), (2, .intVal 2)] ∧
    MPlug.getValue (.compound (compoundAttr "pair")
        [demoScalar "tx" 1, demoScalar "ty" 2])
      = .strMap [("tx", .intVal 1), ("ty", .intVal 2)] ∧
    MPlug.getValue (.compound (double2Attr "pair")
        [demoScalar "tx" 1, demoScalar "ty" 2])
      = .listVal [.intVal 1, .intVal 2] ∧
    MPlug.getValue (demoScalar "s" 7) = .intVal 7 := by
  refine ⟨rfl, rfl, fun h => ?_, rfl, rfl, rfl⟩
  have h2 : PyValue.intMap [(0, PyValue.boundMethod (demoScalar "arr" 1)),
      (2, PyValue.boundMethod (demoScalar "arr" 2))]
    = PyValue.intMap [(0, PyValue.intVal 1), (2, PyValue.intVal 2)] := h
  injection h2 with hlist
  injection hlist with hhead _
  injection hhead with _ hsnd
  exact PyValue.noConfusion hsnd

/-- C6 counterexample: a storable array plug with two non-default
elements at the non-sequential indices `{0, 2}` emits the two element
assignments but *no* size-assertion command, though the claim requires
one for every non-empty array. -/
theorem getSetAttrCmds_sparse_no_size :
    MPlug.getSetAttrCmds true (.arrayPlug (doubleAttr "arr")
        [(0, demoScalar "arr" 3), (2, demoScalar "arr" 4)])
      = [.untypedAssign "arr" "3", .untypedAssign "arr" "4"] ∧
    ((MPlug.getSetAttrCmds true (.arrayPlug (doubleAttr "arr")
        [(0, demoScalar "arr" 3), (2, demoScalar "arr" 4)])).all
      (fun c => !c.isSetSize)) = true :=
  ⟨rfl, rfl⟩

/-- Bridging identity: the element traversal on lines 811-816 emits
each stored element's commands in order. -/
theorem elemsSetAttrCmds_eq_flatMap (elems : List (Nat × MPlug)) :
    elemsSetAttrCmds elems
      = elems.flatMap (fun e => MPlug.getSetAttrCmds true e.2) := by
  induction elems with
  | nil => rfl
  | cons e rest ih =>
    cases e with
    | mk i p => rw [elemsSetAttrCmds, List.flatMap_cons, ih]

/-- C6 (amended): for a storable top-level array plug the serializer
emits nothing when there are zero elements; with at least one element
it emits the size-assertion command *only when the element indices are
sequential*, followed — in both the sequential and the sparse case —
by every physical element's commands in ascending logical-index order,
each element serialized with non-default filtering on. -/
theorem getSetAttrCmds_array_structure (nonDefault : Bool) (a : MAttrInfo)
    (elems : List (Nat × MPlug)) (hst : a.storable = true) (hne : elems ≠ []) :
    (isSequentialIndices (elems.map (fun e => e.1)) = true →
      MPlug.getSetAttrCmds nonDefault (.arrayPlug a elems)
        = .setSize a.cmdName elems.length :: elemsSetAttrCmds elems) ∧
    (isSequentialIndices (elems.map (fun e => e.1)) = false →
      MPlug.getSetAttrCmds nonDefault (.arrayPlug a elems)
        = elemsSetAttrCmds elems) ∧
    elemsSetAttrCmds elems
      = elems.flatMap (fun e => MPlug.getSetAttrCmds true e.2) ∧
    MPlug.getSetAttrCmds nonDefault (.arrayPlug a []) = [] := by
  refine ⟨fun hseq => ?_, fun hseq => ?_, elemsSetAttrCmds_eq_flatMap elems,
    by simp [MPlug.getSetAttrCmds, hst]⟩
  · simp [MPlug.getSetAttrCmds, hst, hseq, List.length_eq_zero, hne]
  · simp [MPlug.getSetAttrCmds, hst, hseq, List.length_eq_zero, hne]

/-- Witness for C6 at concrete inputs: a sequential two-element array
leads with its size assertion; the empty array emits nothing. -/
theorem getSetAttrCmds_array_structure_witness :
    MPlug.getSetAttrCmds true (.arrayPlug (doubleAttr "arr")
        [(0, demoScalar "arr" 3), (1, demoScalar "arr" 4)])
      = .setSize "arr" 2
          :: elemsSetAttrCmds [(0, demoScalar "arr" 3), (1, demoScalar "arr" 4)] ∧
    MPlug.getSetAttrCmds true (.arrayPlug (doubleAttr "arr") []) = [] :=
  ⟨(getSetAttrCmds_array_structure true (doubleAttr "arr")
      [(0, demoScalar "arr" 3), (1, demoScalar "arr" 4)] rfl
      (List.cons_ne_nil _ _)).1 (by decide),
   (getSetAttrCmds_array_structure true (doubleAttr "arr")
      [(0, demoScalar "arr" 0), (1, demoScalar "arr" 0)] rfl
      (List.cons_ne_nil _ _)).2.2.2⟩

/-! ## Array plug sizing (src/asciiplug.py lines 506-542)

The `size` setter materializes missing elements through direct dict
assignment.  `SparseArray.__items__` is carried as its sorted
association list; the freshly constructed element plug
(`AsciiPlug(self.node, self.attribute, index=index, parent=...)`) is
abstracted as a function of its logical index, so the section is
generic in the element type. -/

/-- `SparseArray.__setitem__` under the sorted association-list
representation: replace the entry at `k` or insert it at its sorted
position. -/
def setItem {α : Type} (xs : List (Nat × α)) (k : Nat) (v : α) : List (Nat × α) :=
  match xs with
  | [] => [(k, v)]
  | (k0, v0) :: rest =>
    if k < k0 then (k, v) :: (k0, v0) :: rest
    else if k = k0 then (k, v) :: rest
    else (k0, v0) :: setItem rest k v

/-- `SparseArray.get`: the value stored at a key. -/
def getItem {α : Type} (xs : List (Nat × α)) (k : Nat) : Option α :=
  match xs with
  | [] => none
  | (k0, v0) :: rest => if k = k0 then some v0 else getItem rest k

/-- The `size` setter's array branch (asciiplug.py lines 526-534):
`for index in range(current, size): self._elements[index] = AsciiPlug(...)`,
where `current = self.numElements` is the dict's *length* (not its
largest key). -/
def setSizeElems {α : Type} (freshElem : Nat → α) (xs : List (Nat × α)) (size : Nat) :
    List (Nat × α) :=
  (List.range' xs.length (size - xs.length)).foldl
    (fun es index => setItem es index (freshElem index)) xs

/-- What the `size` setter is invoked on: a top-level array plug, or
one of its element plugs (which carries its logical index). -/
inductive SizeTarget (α : Type) where
  | topArray (elems : List (Nat × α))
  | element (parentElems : List (Nat × α)) (logicalIndex : Nat)

/-- The `size` setter's dispatch (asciiplug.py lines 516-542): a
top-level array plug grows its own element dict; an element plug
assigns to its parent's `size`. -/
def setSizeOn {α : Type} (freshElem : Nat → α) : SizeTarget α → Nat → List (Nat × α)
  | .topArray elems, size => setSizeElems freshElem elems size
  | .element parentElems _, size => setSizeElems freshElem parentElems size

/-- Assigning a key above every stored key appends the new entry. -/
theorem setItem_append_of_lt {α : Type} (xs : List (Nat × α)) (k : Nat) (v : α)
    (h : ∀ e ∈ xs, e.1 < k) : setItem xs k v = xs ++ [(k, v)] := by
  induction xs with
  | nil => rfl
  | cons e rest ih =>
    cases e with
    | mk k0 v0 =>
      have hk0 : k0 < k := h (k0, v0) (List.mem_cons_self _ _)
      rw [setItem, if_neg (by omega), if_neg (by omega),
        ih (fun e he => h e (List.mem_cons_of_mem _ he))]
      rfl

/-- Growing by consecutive assignments at keys starting above every
stored key appends the fresh entries in order. -/
theorem foldl_setItem_range {α : Type} (f : Nat → α) :
    ∀ (n c : Nat) (xs : List (Nat × α)), (∀ e ∈ xs, e.1 < c) →
      (List.range' c n).foldl (fun es i => setItem es i (f i)) xs
        = xs ++ (List.range' c n).map (fun i => (i, f i)) := by
  intro n
  induction n with
  | zero => intro c xs _; simp
  | succ n ih =>
    intro c xs h
    rw [List.range'_succ c n 1, List.foldl_cons, List.map_cons,
      setItem_append_of_lt xs c (f c) h,
      ih (c + 1) (xs ++ [(c, f c)]) ?later]
    · rw [List.append_assoc]
      rfl
    case later =>
      intro e he
      rcases List.mem_append.mp he with h1 | h2
      · exact Nat.lt_succ_of_lt (h e h1)
      · rw [List.mem_singleton.mp h2]
        exact Nat.lt_succ_self c

/-- Assigning an existing key of a sorted dict keeps the key list and
stores the value at that key. -/
theorem setItem_existing_keys {α : Type} (xs : List (Nat × α)) (k : Nat) (v : α)
    (hsort : (xs.map Prod.fst).Pairwise (· < ·)) (hk : k ∈ xs.map Prod.fst) :
    (setItem xs k v).map Prod.fst = xs.map Prod.fst ∧
    getItem (setItem xs k v) k = some v := by
  induction xs with
  | nil => exact absurd hk (by simp)
  | cons e rest ih =>
    cases e with
    | mk k0 v0 =>
      rw [List.map_cons, List.pairwise_cons] at hsort
      rcases List.mem_cons.mp hk with hk0 | hmem
      · subst hk0
        rw [setItem, if_neg (by omega), if_pos rfl]
        exact ⟨rfl, by rw [getItem, if_pos rfl]⟩
      · have hklt : k0 < k := hsort.1 k hmem
        rw [setItem, if_neg (by omega), if_neg (by omega)]
        have := ih hsort.2 hmem
        constructor
        · rw [List.map_cons, List.map_cons, this.1]
        · rw [getItem, if_neg (by omega), this.2]

/-- Looking an existing key up ignores everything appended behind the
stored entries. -/
theorem getItem_append_left {α : Type} (xs ys : List (Nat × α)) (k : Nat)
    (hk : k ∈ xs.map Prod.fst) : getItem (xs ++ ys) k = getItem xs k := by
  induction xs with
  | nil => exact absurd hk (by simp)
  | cons e rest ih =>
    cases e with
    | mk k0 v0 =>
      rw [List.cons_append, getItem, getItem]
      by_cases hkk : k = k0
      · rw [if_pos hkk, if_pos hkk]
      · rw [if_neg hkk, if_neg hkk]
        rcases List.mem_cons.mp hk with h1 | h2
        · exact absurd h1 hkk
        · exact ih h2

/-- C7: the `size` setter on an initially empty top-level array plug
materializes elements at exactly the indices `0 .. N-1`; it never
shrinks (a size at most the current element count changes nothing);
on a contiguous array — which the combination of growth and in-place
element updates always yields — growing further preserves the stored
entry at every existing index while reaching the requested count; and
invoking the setter on an element plug delegates to its parent. -/
theorem size_setter_growth {α : Type} (freshElem : Nat → α) :
    (∀ N : Nat, (setSizeElems freshElem [] N).length = N ∧
      (setSizeElems freshElem [] N).map Prod.fst = List.range N) ∧
    (∀ (xs : List (Nat × α)) (k : Nat), k ≤ xs.length →
      setSizeElems freshElem xs k = xs) ∧
    (∀ (xs : List (Nat × α)) (k : Nat) (v : α),
      xs.map Prod.fst = List.range xs.length → k < xs.length →
      (setItem xs k v).map Prod.fst = xs.map Prod.fst ∧
      getItem (setItem xs k v) k = some v) ∧
    (∀ (xs : List (Nat × α)) (M : Nat), xs.map Prod.fst = List.range xs.length →
      (∀ k, k < xs.length →
        getItem (setSizeElems freshElem xs M) k = getItem xs k) ∧
      (xs.length ≤ M → (setSizeElems freshElem xs M).length = M)) ∧
    (∀ (parentElems : List (Nat × α)) (i size : Nat),
      setSizeOn freshElem (.element parentElems i) size
        = setSizeOn freshElem (.topArray parentElems) size) := by
  have hgrow : ∀ (xs : List (Nat × α)) (M : Nat),
      xs.map Prod.fst = List.range xs.length →
      setSizeElems freshElem xs M
        = xs ++ (List.range' xs.length (M - xs.length)).map
            (fun i => (i, freshElem i)) := by
    intro xs M hkeys
    refine foldl_setItem_range freshElem _ _ xs (fun e he => ?_)
    have : e.1 ∈ xs.map Prod.fst := List.mem_map_of_mem Prod.fst he
    rw [hkeys] at this
    exact List.mem_range.mp this
  refine ⟨fun N => ?_, fun xs k hk => ?_, fun xs k v hkeys hk => ?_,
    fun xs M hkeys => ⟨fun k hk => ?_, fun hM => ?_⟩, fun parentElems i size => rfl⟩
  · have h0 : setSizeElems freshElem ([] : List (Nat × α)) N
        = (List.range' 0 N).map (fun i => (i, freshElem i)) := by
      have := hgrow [] N (by simp)
      simpa using this
    rw [h0]
    constructor
    · simp
    · rw [List.map_map, List.range_eq_range' N]
      have : (Prod.fst ∘ fun i => (i, freshElem i)) = fun i : Nat => i := rfl
      rw [this, List.map_id']
  · rw [setSizeElems, Nat.sub_eq_zero_of_le hk]
    rfl
  · refine setItem_existing_keys xs k v ?_ ?_
    · rw [hkeys]; exact List.pairwise_lt_range _
    · rw [hkeys]; exact List.mem_range.mpr hk
  · rw [hgrow xs M hkeys]
    refine getItem_append_left xs _ k ?_
    rw [hkeys]; exact List.mem_range.mpr hk
  · rw [hgrow xs M hkeys]
    simp
    omega

/-- Witness for C7 at concrete inputs: growing an empty array to 2
yields elements at `{0, 1}`; shrinking to 1 changes nothing; growing
`{0 ↦ 5, 1 ↦ 6}` to 4 keeps the value at index 0 and reaches 4
elements; and an element plug's setter acts on its parent. -/
theorem size_setter_growth_witness :
    ((setSizeElems (fun _ => (0 : Int)) [] 2).length = 2 ∧
      (setSizeElems (fun _ => (0 : Int)) [] 2).map Prod.fst = List.range 2) ∧
    setSizeElems (fun _ => (0 : Int)) [(0, 5), (1, 6)] 1 = [(0, 5), (1, 6)] ∧
    getItem (setItem [(0, (5 : Int)), (1, 6)] 0 7) 0 = some 7 ∧
    getItem (setSizeElems (fun _ => (0 : Int)) [(0, 5), (1, 6)] 4) 0
      = getItem [(0, (5 : Int)), (1, 6)] 0 ∧
    (setSizeElems (fun _ => (0 : Int)) [(0, 5), (1, 6)] 4).length = 4 ∧
    setSizeOn (fun _ => (0 : Int)) (.element [(0, 5)] 0) 3
      = setSizeOn (fun _ => (0 : Int)) (.topArray [(0, 5)]) 3 :=
  ⟨(size_setter_growth (fun _ => (0 : Int))).1 2,
   (size_setter_growth (fun _ => (0 : Int))).2.1 [(0, 5), (1, 6)] 1 (by decide),
   ((size_setter_growth (fun _ => (0 : Int))).2.2.1 [(0, 5), (1, 6)] 0 7
     (by decide) (by decide)).2,
   ((size_setter_growth (fun _ => (0 : Int))).2.2.2.1 [(0, 5), (1, 6)] 4
     (by decide)).1 0 (by decide),
   ((size_setter_growth (fun _ => (0 : Int))).2.2.2.1 [(0, 5), (1, 6)] 4
     (by decide)).2 (by decide),
   (size_setter_growth (fun _ => (0 : Int))).2.2.2.2 [(0, 5)] 0 3⟩

end Mason
